import Mathlib

/-!
Shallow embedding of `pymatgen/symmetry/bandstructure.py` (class `HighSymmKpath`).

The Python floats are modelled as real numbers; the spec describes the branch
conditions as exact comparisons on real-valued quantities.  A k-point
dictionary is modelled as an association list from labels to vectors in
`Fin 3 → ℝ` (lookup by label, as in the source's dict access); a path is a
list of label lists.  Angles are carried in degrees exactly as the source
receives them from the lattice accessors, and converted with `* pi / 180`
exactly where the source converts them.

Python float division raises `ZeroDivisionError` when the denominator is `0`;
it is embedded as `pydiv`, returning `Option ℝ`, and the sampling loop of
`get_kpoints` therefore returns `Option (List _)`: `none` models the raised
exception.  The constructor `__init__` contains no `raise` statement at all;
its dispatch is total and is embedded as `classify : SymData → Option KPath`,
where `none` models the `_kpath` attribute keeping its initial Python `None`.
-/

namespace Bandstructure

noncomputable section

/-- The value returned by every path-generating method of `HighSymmKpath`:
the `_name` attribute it sets, the `kpoints` dict (association list, in the
source's textual order) and the `path` list of label sequences. -/
structure KPath where
  name : String
  kpoints : List (String × (Fin 3 → ℝ))
  path : List (List String)

/-- `HighSymmKpath.cubic`. -/
def cubic : KPath :=
  ⟨"CUB",
   [("\\Gamma", ![0.0, 0.0, 0.0]),
    ("X", ![0.0, 0.5, 0.0]),
    ("R", ![0.5, 0.5, 0.5]),
    ("M", ![0.5, 0.5, 0.0])],
   [["\\Gamma", "X", "M", "\\Gamma", "R", "X"],
    ["M", "R"]]⟩

/-- `HighSymmKpath.fcc`. -/
def fcc : KPath :=
  ⟨"FCC",
   [("\\Gamma", ![0.0, 0.0, 0.0]),
    ("K", ![3.0 / 8.0, 3.0 / 8.0, 3.0 / 4.0]),
    ("L", ![0.5, 0.5, 0.5]),
    ("U", ![5.0 / 8.0, 1.0 / 4.0, 5.0 / 8.0]),
    ("W", ![0.5, 1.0 / 4.0, 3.0 / 4.0]),
    ("X", ![0.5, 0.0, 0.5])],
   [["\\Gamma", "X", "W", "K", "\\Gamma", "L", "U", "W", "L", "K"],
    ["U", "X"]]⟩

/-- `HighSymmKpath.bcc`. -/
def bcc : KPath :=
  ⟨"BCC",
   [("\\Gamma", ![0.0, 0.0, 0.0]),
    ("H", ![0.5, -0.5, 0.5]),
    ("P", ![0.25, 0.25, 0.25]),
    ("N", ![0.0, 0.0, 0.5])],
   [["\\Gamma", "H", "N", "\\Gamma", "P", "H"],
    ["P", "N"]]⟩

/-- `HighSymmKpath.tet`. -/
def tet : KPath :=
  ⟨"TET",
   [("\\Gamma", ![0.0, 0.0, 0.0]),
    ("A", ![0.5, 0.5, 0.5]),
    ("M", ![0.5, 0.5, 0.0]),
    ("R", ![0.0, 0.5, 0.5]),
    ("X", ![0.0, 0.5, 0.0]),
    ("Z", ![0.0, 0.0, 0.5])],
   [["\\Gamma", "X", "M", "\\Gamma", "Z", "R", "A", "Z"],
    ["X", "R"],
    ["M", "A"]]⟩

/-- `HighSymmKpath.bctet1` (argument order `(c, a)` as in the source). -/
def bctet1 (c a : ℝ) : KPath :=
  let eta := (1 + c ^ 2 / a ^ 2) / 4.0
  ⟨"BCT1",
   [("\\Gamma", ![0.0, 0.0, 0.0]),
    ("M", ![-0.5, 0.5, 0.5]),
    ("N", ![0.0, 0.5, 0.0]),
    ("P", ![0.25, 0.25, 0.25]),
    ("X", ![0.0, 0.0, 0.5]),
    ("Z", ![eta, eta, -eta]),
    ("Z_1", ![-eta, 1 - eta, eta])],
   [["\\Gamma", "X", "M", "\\Gamma", "Z", "P", "N", "Z_1", "M"],
    ["X", "P"]]⟩

/-- `HighSymmKpath.bctet2` (argument order `(c, a)` as in the source). -/
def bctet2 (c a : ℝ) : KPath :=
  let eta := (1 + a ^ 2 / c ^ 2) / 4.0
  let zeta := a ^ 2 / (2 * c ^ 2)
  ⟨"BCT2",
   [("\\Gamma", ![0.0, 0.0, 0.0]),
    ("N", ![0.0, 0.5, 0.0]),
    ("P", ![0.25, 0.25, 0.25]),
    ("\\Sigma", ![-eta, eta, eta]),
    ("\\Sigma_1", ![eta, 1 - eta, -eta]),
    ("X", ![0.0, 0.0, 0.5]),
    ("Y", ![-zeta, zeta, 0.5]),
    ("Y_1", ![0.5, 0.5, -zeta]),
    ("Z", ![0.5, 0.5, -0.5])],
   [["\\Gamma", "X", "Y", "\\Sigma", "\\Gamma", "Z", "\\Sigma_1", "N", "P", "Y_1", "Z"],
    ["X", "P"]]⟩

/-- `HighSymmKpath.orc`. -/
def orc : KPath :=
  ⟨"ORC",
   [("\\Gamma", ![0.0, 0.0, 0.0]),
    ("R", ![0.5, 0.5, 0.5]),
    ("S", ![0.5, 0.5, 0.0]),
    ("T", ![0.0, 0.5, 0.5]),
    ("U", ![0.5, 0.0, 0.5]),
    ("X", ![0.5, 0.0, 0.0]),
    ("Y", ![0.0, 0.5, 0.0]),
    ("Z", ![0.0, 0.0, 0.5])],
   [["\\Gamma", "X", "S", "Y", "\\Gamma", "Z", "U", "R", "T", "Z"],
    ["Y", "T"],
    ["U", "X"],
    ["S", "R"]]⟩

/-- `HighSymmKpath.orcf1`. -/
def orcf1 (a b c : ℝ) : KPath :=
  let zeta := (1 + a ^ 2 / b ^ 2 - a ^ 2 / c ^ 2) / 4
  let eta := (1 + a ^ 2 / b ^ 2 + a ^ 2 / c ^ 2) / 4
  ⟨"ORCF1",
   [("\\Gamma", ![0.0, 0.0, 0.0]),
    ("A", ![0.5, 0.5 + zeta, zeta]),
    ("A_1", ![0.5, 0.5 - zeta, 1 - zeta]),
    ("L", ![0.5, 0.5, 0.5]),
    ("T", ![1, 0.5, 0.5]),
    ("X", ![0.0, eta, eta]),
    ("X_1", ![1, 1 - eta, 1 - eta]),
    ("Y", ![0.5, 0.0, 0.5]),
    ("Z", ![0.5, 0.5, 0.0])],
   [["\\Gamma", "Y", "T", "Z", "\\Gamma", "X", "A_1", "Y"],
    ["T", "X_1"],
    ["X", "A", "Z"],
    ["L", "\\Gamma"]]⟩

/-- `HighSymmKpath.orcf2`. -/
def orcf2 (a b c : ℝ) : KPath :=
  let phi := (1 + c ^ 2 / b ^ 2 - c ^ 2 / a ^ 2) / 4
  let eta := (1 + a ^ 2 / b ^ 2 - a ^ 2 / c ^ 2) / 4
  let delta := (1 + b ^ 2 / a ^ 2 - b ^ 2 / c ^ 2) / 4
  ⟨"ORCF2",
   [("\\Gamma", ![0.0, 0.0, 0.0]),
    ("C", ![0.5, 0.5 - eta, 1 - eta]),
    ("C_1", ![0.5, 0.5 + eta, eta]),
    ("D", ![0.5 - delta, 0.5, 1 - delta]),
    ("D_1", ![0.5 + delta, 0.5, delta]),
    ("L", ![0.5, 0.5, 0.5]),
    ("H", ![1 - phi, 0.5 - phi, 0.5]),
    ("H_1", ![phi, 0.5 + phi, 0.5]),
    ("X", ![0.0, 0.5, 0.5]),
    ("Y", ![0.5, 0.0, 0.5]),
    ("Z", ![0.5, 0.5, 0.0])],
   [["\\Gamma", "Y", "C", "D", "X", "\\Gamma", "Z", "D_1", "H", "C"],
    ["C_1", "Z"],
    ["X", "H_1"],
    ["H", "Y"],
    ["L", "\\Gamma"]]⟩

/-- `HighSymmKpath.orcf3`. -/
def orcf3 (a b c : ℝ) : KPath :=
  let zeta := (1 + a ^ 2 / b ^ 2 - a ^ 2 / c ^ 2) / 4
  let eta := (1 + a ^ 2 / b ^ 2 + a ^ 2 / c ^ 2) / 4
  ⟨"ORCF3",
   [("\\Gamma", ![0.0, 0.0, 0.0]),
    ("A", ![0.5, 0.5 + zeta, zeta]),
    ("A_1", ![0.5, 0.5 - zeta, 1 - zeta]),
    ("L", ![0.5, 0.5, 0.5]),
    ("T", ![1, 0.5, 0.5]),
    ("X", ![0.0, eta, eta]),
    ("X_1", ![1, 1 - eta, 1 - eta]),
    ("Y", ![0.5, 0.0, 0.5]),
    ("Z", ![0.5, 0.5, 0.0])],
   [["\\Gamma", "Y", "T", "Z", "\\Gamma", "X", "A_1", "Y"],
    ["X", "A", "Z"],
    ["L", "\\Gamma"]]⟩

/-- `HighSymmKpath.orci`. -/
def orci (a b c : ℝ) : KPath :=
  let zeta := (1 + a ^ 2 / c ^ 2) / 4
  let eta := (1 + b ^ 2 / c ^ 2) / 4
  let delta := (b ^ 2 - a ^ 2) / (4 * c ^ 2)
  let mu := (a ^ 2 + b ^ 2) / (4 * c ^ 2)
  ⟨"ORCI",
   [("\\Gamma", ![0.0, 0.0, 0.0]),
    ("L", ![-mu, mu, 0.5 - delta]),
    ("L_1", ![mu, -mu, 0.5 + delta]),
    ("L_2", ![0.5 - delta, 0.5 + delta, -mu]),
    ("R", ![0.0, 0.5, 0.0]),
    ("S", ![0.5, 0.0, 0.0]),
    ("T", ![0.0, 0.0, 0.5]),
    ("W", ![0.25, 0.25, 0.25]),
    ("X", ![-zeta, zeta, zeta]),
    ("X_1", ![zeta, 1 - zeta, -zeta]),
    ("Y", ![eta, -eta, eta]),
    ("Y_1", ![1 - eta, eta, -eta]),
    ("Z", ![0.5, 0.5, -0.5])],
   [["\\Gamma", "X", "L", "T", "W", "R", "X_1", "Z", "\\Gamma", "Y", "S", "W"],
    ["L_1", "Y"],
    ["Y_1", "Z"]]⟩

/-- `HighSymmKpath.orcc`. -/
def orcc (a b c : ℝ) : KPath :=
  let zeta := (1 + a ^ 2 / b ^ 2) / 4
  ⟨"ORCC",
   [("\\Gamma", ![0.0, 0.0, 0.0]),
    ("A", ![zeta, zeta, 0.5]),
    ("A_1", ![-zeta, 1 - zeta, 0.5]),
    ("R", ![0.0, 0.5, 0.5]),
    ("S", ![0.0, 0.5, 0.0]),
    ("T", ![-0.5, 0.5, 0.5]),
    ("X", ![zeta, zeta, 0.0]),
    ("X_1", ![-zeta, 1 - zeta, 0.0]),
    ("Y", ![-0.5, 0.5, 0]),
    ("Z", ![0.0, 0.0, 0.5])],
   [["\\Gamma", "X", "S", "R", "A", "Z", "\\Gamma", "Y", "X_1", "A_1", "T", "Y"],
    ["Z", "T"]]⟩

/-- `HighSymmKpath.hex`. -/
def hex : KPath :=
  ⟨"HEX",
   [("\\Gamma", ![0.0, 0.0, 0.0]),
    ("A", ![0.0, 0.0, 0.5]),
    ("H", ![1.0 / 3.0, 1.0 / 3.0, 0.5]),
    ("K", ![1.0 / 3.0, 1.0 / 3.0, 0.0]),
    ("L", ![0.5, 0.0, 0.5]),
    ("M", ![0.5, 0.0, 0.0])],
   [["\\Gamma", "M", "K", "\\Gamma", "A", "L", "H", "A"],
    ["L", "M"],
    ["K", "H"]]⟩

/-- `HighSymmKpath.rhl1` (`alpha` already in radians at the call site). -/
def rhl1 (alpha : ℝ) : KPath :=
  let eta := (1 + 4 * Real.cos alpha) / (2 + 4 * Real.cos alpha)
  let nu := 3.0 / 4.0 - eta / 2.0
  ⟨"RHL1",
   [("\\Gamma", ![0.0, 0.0, 0.0]),
    ("B", ![eta, 0.5, 1.0 - eta]),
    ("B_1", ![1.0 / 2.0, 1.0 - eta, eta - 1.0]),
    ("F", ![0.5, 0.5, 0.0]),
    ("L", ![0.5, 0.0, 0.0]),
    ("L_1", ![0.0, 0.0, -0.5]),
    ("P", ![eta, nu, nu]),
    ("P_1", ![1.0 - nu, 1.0 - nu, 1.0 - eta]),
    ("P_2", ![nu, nu, eta - 1.0]),
    ("Q", ![1.0 - nu, nu, 0.0]),
    ("X", ![nu, 0.0, -nu]),
    ("Z", ![0.5, 0.5, 0.5])],
   [["\\Gamma", "L", "B_1"],
    ["B", "Z", "\\Gamma", "X"],
    ["Q", "F", "P_1", "Z"],
    ["L", "P"]]⟩

/-- `HighSymmKpath.rhl2` (`alpha` already in radians at the call site). -/
def rhl2 (alpha : ℝ) : KPath :=
  let eta := 1 / (2 * Real.tan (alpha / 2.0) ^ 2)
  let nu := 3.0 / 4.0 - eta / 2.0
  ⟨"RHL2",
   [("\\Gamma", ![0.0, 0.0, 0.0]),
    ("F", ![0.5, -0.5, 0.0]),
    ("L", ![0.5, 0.0, 0.0]),
    ("P", ![1 - nu, -nu, 1 - nu]),
    ("P_1", ![nu, nu - 1.0, nu - 1.0]),
    ("Q", ![eta, eta, eta]),
    ("Q_1", ![1.0 - eta, -eta, -eta]),
    ("Z", ![0.5, -0.5, 0.5])],
   [["\\Gamma", "P", "Z", "Q", "\\Gamma", "F", "P_1", "Q_1", "L", "Z"]]⟩

/-- `eta` of `HighSymmKpath.mcl` (lifted to a top-level definition so that
theorems can name it; `mcl` uses it verbatim). -/
def mclEta (b c alpha : ℝ) : ℝ :=
  (1 - b * Real.cos alpha / c) / (2 * Real.sin alpha ^ 2)

/-- `nu` of `HighSymmKpath.mcl`. -/
def mclNu (b c alpha : ℝ) : ℝ :=
  0.5 - mclEta b c alpha * c * Real.cos alpha / b

/-- `HighSymmKpath.mcl` (`alpha` already in radians at the call site). -/
def mcl (b c alpha : ℝ) : KPath :=
  let eta := mclEta b c alpha
  let nu := mclNu b c alpha
  ⟨"MCL",
   [("\\Gamma", ![0.0, 0.0, 0.0]),
    ("A", ![0.5, 0.5, 0.0]),
    ("C", ![0.0, 0.5, 0.5]),
    ("D", ![0.5, 0.0, 0.5]),
    ("D_1", ![0.5, 0.5, -0.5]),
    ("E", ![0.5, 0.5, 0.5]),
    ("H", ![0.0, eta, 1.0 - nu]),
    ("H_1", ![0.0, 1.0 - eta, nu]),
    ("H_2", ![0.0, eta, -nu]),
    ("M", ![0.5, eta, 1.0 - nu]),
    ("M_1", ![0.5, 1 - eta, nu]),
    ("M_2", ![0.5, 1 - eta, nu]),
    ("X", ![0.0, 0.5, 0.0]),
    ("Y", ![0.0, 0.0, 0.5]),
    ("Y_1", ![0.0, 0.0, -0.5]),
    ("Z", ![0.5, 0.0, 0.0])],
   [["\\Gamma", "Y", "H", "C", "E", "M_1", "A", "X", "H_1"],
    ["M", "D", "Z"],
    ["Y", "D"]]⟩

/-- `HighSymmKpath.mclc1` (`alpha` already in radians at the call site). -/
def mclc1 (a b c alpha : ℝ) : KPath :=
  let zeta := (2 - b * Real.cos alpha / c) / (4 * Real.sin alpha ^ 2)
  let eta := 0.5 + 2 * zeta * c * Real.cos alpha / b
  let psi := 0.75 - a ^ 2 / (4 * b ^ 2 * Real.sin alpha ^ 2)
  let phi := psi + (0.75 - psi) * b * Real.cos alpha / c
  ⟨"MCLC1",
   [("\\Gamma", ![0.0, 0.0, 0.0]),
    ("N", ![0.5, 0.0, 0.0]),
    ("N_1", ![0.0, -0.5, 0.0]),
    ("F", ![1 - zeta, 1 - zeta, 1 - eta]),
    ("F_1", ![zeta, zeta, eta]),
    ("F_2", ![-zeta, -zeta, 1 - eta]),
    ("I", ![phi, 1 - phi, 0.5]),
    ("I_1", ![1 - phi, phi - 1, 0.5]),
    ("L", ![0.5, 0.5, 0.5]),
    ("M", ![0.5, 0.0, 0.5]),
    ("X", ![1 - psi, psi - 1, 0.0]),
    ("X_1", ![psi, 1 - psi, 0.0]),
    ("X_2", ![psi - 1, -psi, 0.0]),
    ("Y", ![0.5, 0.5, 0.0]),
    ("Y_1", ![-0.5, -0.5, 0.0]),
    ("Z", ![0.0, 0.0, 0.5])],
   [["\\Gamma", "Y", "F", "L", "I"],
    ["I_1", "Z", "F_1"],
    ["Y", "X_1"],
    ["X", "\\Gamma", "N"],
    ["M", "\\Gamma"]]⟩

/-- `HighSymmKpath.mclc2` (`alpha` already in radians at the call site). -/
def mclc2 (a b c alpha : ℝ) : KPath :=
  let zeta := (2 - b * Real.cos alpha / c) / (4 * Real.sin alpha ^ 2)
  let eta := 0.5 + 2 * zeta * c * Real.cos alpha / b
  let psi := 0.75 - a ^ 2 / (4 * b ^ 2 * Real.sin alpha ^ 2)
  let phi := psi + (0.75 - psi) * b * Real.cos alpha / c
  ⟨"MCLC2",
   [("\\Gamma", ![0.0, 0.0, 0.0]),
    ("N", ![0.5, 0.0, 0.0]),
    ("N_1", ![0.0, -0.5, 0.0]),
    ("F", ![1 - zeta, 1 - zeta, 1 - eta]),
    ("F_1", ![zeta, zeta, eta]),
    ("F_2", ![-zeta, -zeta, 1 - eta]),
    ("F_3", ![1 - zeta, -zeta, 1 - eta]),
    ("I", ![phi, 1 - phi, 0.5]),
    ("I_1", ![1 - phi, phi - 1, 0.5]),
    ("L", ![0.5, 0.5, 0.5]),
    ("M", ![0.5, 0.0, 0.5]),
    ("X", ![1 - psi, psi - 1, 0.0]),
    ("X_1", ![psi, 1 - psi, 0.0]),
    ("X_2", ![psi - 1, -psi, 0.0]),
    ("Y", ![0.5, 0.5, 0.0]),
    ("Y_1", ![-0.5, -0.5, 0.0]),
    ("Z", ![0.0, 0.0, 0.5])],
   [["\\Gamma", "Y", "F", "L", "I"],
    ["I_1", "Z", "F_1"],
    ["N", "\\Gamma", "M"]]⟩

/-- `HighSymmKpath.mclc3` (`alpha` already in radians at the call site). -/
def mclc3 (a b c alpha : ℝ) : KPath :=
  let mu := (1 + b ^ 2 / a ^ 2) / 4.0
  let delta := b * c * Real.cos alpha / (2 * a ^ 2)
  let zeta := mu - 0.25 + (1 - b * Real.cos alpha / c) / (4 * Real.sin alpha ^ 2)
  let eta := 0.5 + 2 * zeta * c * Real.cos alpha / b
  let phi := 1 + zeta - 2 * mu
  let psi := eta - 2 * delta
  ⟨"MCLC3",
   [("\\Gamma", ![0.0, 0.0, 0.0]),
    ("F", ![1 - phi, 1 - phi, 1 - psi]),
    ("F_1", ![phi, phi - 1, psi]),
    ("F_2", ![1 - phi, -phi, 1 - psi]),
    ("H", ![zeta, zeta, eta]),
    ("H_1", ![1 - zeta, -zeta, 1 - eta]),
    ("H_2", ![-zeta, -zeta, 1 - eta]),
    ("I", ![0.5, -0.5, 0.5]),
    ("M", ![0.5, 0.0, 0.5]),
    ("N", ![0.5, 0.0, 0.0]),
    ("N_1", ![0.0, -0.5, 0.0]),
    ("X", ![0.5, -0.5, 0.0]),
    ("Y", ![mu, mu, delta]),
    ("Y_1", ![1 - mu, -mu, -delta]),
    ("Y_2", ![-mu, -mu, -delta]),
    ("Y_3", ![mu, mu - 1, delta]),
    ("Z", ![0.0, 0.0, 0.5])],
   [["\\Gamma", "Y", "F", "H", "Z", "I", "F_1"],
    ["H_1", "Y_1", "X", "\\Gamma", "N"],
    ["M", "\\Gamma"]]⟩

/-- `HighSymmKpath.mclc4` (`alpha` already in radians at the call site). -/
def mclc4 (a b c alpha : ℝ) : KPath :=
  let mu := (1 + b ^ 2 / a ^ 2) / 4.0
  let delta := b * c * Real.cos alpha / (2 * a ^ 2)
  let zeta := mu - 0.25 + (1 - b * Real.cos alpha / c) / (4 * Real.sin alpha ^ 2)
  let eta := 0.5 + 2 * zeta * c * Real.cos alpha / b
  let phi := 1 + zeta - 2 * mu
  let psi := eta - 2 * delta
  ⟨"MCLC4",
   [("\\Gamma", ![0.0, 0.0, 0.0]),
    ("F", ![1 - phi, 1 - phi, 1 - psi]),
    ("F_1", ![phi, phi - 1, psi]),
    ("F_2", ![1 - phi, -phi, 1 - psi]),
    ("H", ![zeta, zeta, eta]),
    ("H_1", ![1 - zeta, -zeta, 1 - eta]),
    ("H_2", ![-zeta, -zeta, 1 - eta]),
    ("I", ![0.5, -0.5, 0.5]),
    ("M", ![0.5, 0.0, 0.5]),
    ("N", ![0.5, 0.0, 0.0]),
    ("N_1", ![0.0, -0.5, 0.0]),
    ("X", ![0.5, -0.5, 0.0]),
    ("Y", ![mu, mu, delta]),
    ("Y_1", ![1 - mu, -mu, -delta]),
    ("Y_2", ![-mu, -mu, -delta]),
    ("Y_3", ![mu, mu - 1, delta]),
    ("Z", ![0.0, 0.0, 0.5])],
   [["\\Gamma", "Y", "F", "H", "Z", "I"],
    ["H_1", "Y_1", "X", "\\Gamma", "N"],
    ["M", "\\Gamma"]]⟩

/-- `HighSymmKpath.mclc5` (`alpha` already in radians at the call site). -/
def mclc5 (a b c alpha : ℝ) : KPath :=
  let zeta := (b ^ 2 / a ^ 2 + (1 - b * Real.cos alpha / c) / Real.sin alpha ^ 2) / 4
  let eta := 0.5 + 2 * zeta * c * Real.cos alpha / b
  let mu := eta / 2 + b ^ 2 / (4 * a ^ 2) - b * c * Real.cos alpha / (2 * a ^ 2)
  let nu := 2 * mu - zeta
  let rho := 1 - zeta * a ^ 2 / b ^ 2
  let omega := (4 * nu - 1 - b ^ 2 * Real.sin alpha ^ 2 / a ^ 2) * c / (2 * b * Real.cos alpha)
  let delta := zeta * c * Real.cos alpha / b + omega / 2 - 0.25
  ⟨"MCLC5",
   [("\\Gamma", ![0.0, 0.0, 0.0]),
    ("F", ![nu, nu, omega]),
    ("F_1", ![1 - nu, 1 - nu, 1 - omega]),
    ("F_2", ![nu, nu - 1, omega]),
    ("H", ![zeta, zeta, eta]),
    ("H_1", ![1 - zeta, -zeta, 1 - eta]),
    ("H_2", ![-zeta, -zeta, 1 - eta]),
    ("I", ![rho, 1 - rho, 0.5]),
    ("I_1", ![1 - rho, rho - 1, 0.5]),
    ("L", ![0.5, 0.5, 0.5]),
    ("M", ![0.5, 0.0, 0.5]),
    ("N", ![0.5, 0.0, 0.0]),
    ("N_1", ![0.0, -0.5, 0.0]),
    ("X", ![0.5, -0.5, 0.0]),
    ("Y", ![mu, mu, delta]),
    ("Y_1", ![1 - mu, -mu, -delta]),
    ("Y_2", ![-mu, -mu, -delta]),
    ("Y_3", ![mu, mu - 1, delta]),
    ("Z", ![0.0, 0.0, 0.5])],
   [["\\Gamma", "Y", "F", "L", "I"],
    ["I_1", "Z", "H", "F_1"],
    ["H_1", "Y_1", "X", "\\Gamma", "N"],
    ["M", "\\Gamma"]]⟩

/-- `HighSymmKpath.tria`. -/
def tria : KPath :=
  ⟨"TRI1a",
   [("\\Gamma", ![0.0, 0.0, 0.0]),
    ("L", ![0.5, 0.5, 0.0]),
    ("M", ![0.0, 0.5, 0.5]),
    ("N", ![0.5, 0.0, 0.5]),
    ("R", ![0.5, 0.5, 0.5]),
    ("X", ![0.5, 0.0, 0.0]),
    ("Y", ![0.0, 0.5, 0.0]),
    ("Z", ![0.0, 0.0, 0.5])],
   [["X", "\\Gamma", "Y"],
    ["L", "\\Gamma", "Z"],
    ["N", "\\Gamma", "M"],
    ["R", "\\Gamma"]]⟩

/-- `HighSymmKpath.trib`. -/
def trib : KPath :=
  ⟨"TRI1b",
   [("\\Gamma", ![0.0, 0.0, 0.0]),
    ("L", ![0.5, -0.5, 0.0]),
    ("M", ![0.0, 0.0, 0.5]),
    ("N", ![-0.5, -0.5, 0.5]),
    ("R", ![0.0, -0.5, 0.5]),
    ("X", ![0.0, -0.5, 0.0]),
    ("Y", ![0.5, 0.0, 0.0]),
    ("Z", ![-0.5, 0.0, 0.5])],
   [["X", "\\Gamma", "Y"],
    ["L", "\\Gamma", "Z"],
    ["N", "\\Gamma", "M"],
    ["R", "\\Gamma"]]⟩

/-- The values `__init__` reads from its collaborators (`SymmetryFinder` and
the standardized lattices): lattice type string, space-group symbol string,
conventional lengths `abc`, conventional first angle, primitive first length
and first angle, and the three reciprocal angles of the primitive reciprocal
lattice.  All angles are in degrees, as the lattice accessors return them. -/
structure SymData where
  latticeType : String
  spacegroupSymbol : String
  convA : ℝ
  convB : ℝ
  convC : ℝ
  convAlpha : ℝ
  primA : ℝ
  primAlpha : ℝ
  kalpha : ℝ
  kbeta : ℝ
  kgamma : ℝ

/-- The dispatch of `HighSymmKpath.__init__` (lines 45-131).  `_kpath`
starts as Python `None` (`none`); each `if` that fires overwrites it, and
the source uses sequences of independent `if` statements (not `elif`) inside
each lattice-type branch, so the embedding threads the previous value
through each conditional assignment.  The Python tests `"P" in symbol` are
single-character substring tests, embedded as containment of the character in the string symbol.  Note that
in the monoclinic C branch the source computes
`b * cos(alpha * pi / 180) / c + b ** 2 * sin(alpha) ** 2 / a ** 2`:
`cos` is applied to the angle converted to radians, `sin` to the raw degree
value; the embedding transcribes that expression exactly. -/
def classify (s : SymData) : Option KPath :=
  if s.latticeType = "cubic" then
    let k1 : Option KPath := if s.spacegroupSymbol.data.contains 'P' then some cubic else none
    let k2 : Option KPath := if s.spacegroupSymbol.data.contains 'F' then some fcc else k1
    if s.spacegroupSymbol.data.contains 'I' then some bcc else k2
  else if s.latticeType = "tetragonal" then
    let k1 : Option KPath := if s.spacegroupSymbol.data.contains 'P' then some tet else none
    if s.spacegroupSymbol.data.contains 'I' then
      (if s.convC < s.convA then some (bctet1 s.convC s.convA)
       else some (bctet2 s.convC s.convA))
    else k1
  else if s.latticeType = "orthorhombic" then
    let a := s.convA
    let b := s.convB
    let c := s.convC
    let k1 : Option KPath := if s.spacegroupSymbol.data.contains 'P' then some orc else none
    let k2 : Option KPath :=
      if s.spacegroupSymbol.data.contains 'F' then
        (if 1 / a ^ 2 > 1 / b ^ 2 + 1 / c ^ 2 then some (orcf1 a b c)
         else if 1 / a ^ 2 < 1 / b ^ 2 + 1 / c ^ 2 then some (orcf2 a b c)
         else some (orcf3 a b c))
      else k1
    let k3 : Option KPath := if s.spacegroupSymbol.data.contains 'I' then some (orci a b c) else k2
    if s.spacegroupSymbol.data.contains 'C' then some (orcc a b c) else k3
  else if s.latticeType = "hexagonal" then some hex
  else if s.latticeType = "rhombohedral" then
    (if s.primAlpha < 90 then some (rhl1 (s.primAlpha * Real.pi / 180))
     else some (rhl2 (s.primAlpha * Real.pi / 180)))
  else if s.latticeType = "monoclinic" then
    let a := s.convA
    let b := s.convB
    let c := s.convC
    let alpha := s.convAlpha
    let k1 : Option KPath :=
      if s.spacegroupSymbol.data.contains 'P' then some (mcl b c (alpha * Real.pi / 180)) else none
    if s.spacegroupSymbol.data.contains 'C' then
      (let t1 : Option KPath :=
         if s.kgamma > 90 then some (mclc1 a b c (alpha * Real.pi / 180)) else k1
       let t2 : Option KPath :=
         if s.kgamma = 90 then some (mclc2 a b c (alpha * Real.pi / 180)) else t1
       if s.kgamma < 90 then
         (let u1 : Option KPath :=
            if b * Real.cos (alpha * Real.pi / 180) / c
                + b ^ 2 * Real.sin alpha ^ 2 / a ^ 2 < 1 then
              some (mclc3 a b c (alpha * Real.pi / 180))
            else t2
          let u2 : Option KPath :=
            if b * Real.cos (alpha * Real.pi / 180) / c
                + b ^ 2 * Real.sin alpha ^ 2 / a ^ 2 = 1 then
              some (mclc4 a b c (alpha * Real.pi / 180))
            else u1
          if b * Real.cos (alpha * Real.pi / 180) / c
              + b ^ 2 * Real.sin alpha ^ 2 / a ^ 2 > 1 then
            some (mclc5 a b c (alpha * Real.pi / 180))
          else u2)
       else t2)
    else k1
  else if s.latticeType = "triclinic" then
    let t1 : Option KPath :=
      if s.kalpha > 90 ∧ s.kbeta > 90 ∧ s.kgamma > 90 then some tria else none
    let t2 : Option KPath :=
      if s.kalpha < 90 ∧ s.kbeta < 90 ∧ s.kgamma < 90 then some trib else t1
    let t3 : Option KPath :=
      if s.kalpha > 90 ∧ s.kbeta > 90 ∧ s.kgamma = 90 then some tria else t2
    if s.kalpha < 90 ∧ s.kbeta < 90 ∧ s.kgamma = 90 then some trib else t3
  else none

/-- The state an instance holds after `__init__`: the `_kpath` attribute
(`None` when no branch of the dispatch fired — the source never raises). -/
structure HighSymmKpathObj where
  _kpath : Option KPath

/-- `HighSymmKpath.__init__`: total — the method body contains no `raise`
statement, so construction always yields an object. -/
def HighSymmKpath_init (s : SymData) : HighSymmKpathObj :=
  ⟨classify s⟩

/-- The `kpath` property: returns `self._kpath` unconditionally. -/
def kpath (o : HighSymmKpathObj) : Option KPath :=
  o._kpath

/-- Python float division: raises `ZeroDivisionError` when the denominator
is zero, so the embedding returns `none` there. -/
def pydiv (x y : ℝ) : Option ℝ :=
  if y = 0 then none else some (x / y)

/-- `np.linalg.norm(u - v)`: the Euclidean distance used by `get_kpoints`. -/
def dist3 (u v : Fin 3 → ℝ) : ℝ :=
  Real.sqrt (∑ j : Fin 3, (u j - v j) ^ 2)

/-- Effectful map over a list: the embedding of a Python loop over a list
whose body may raise — the first failure aborts the whole computation. -/
def optMap {α β : Type} (f : α → Option β) : List α → Option (List β)
  | [] => some []
  | a :: l =>
    match f a, optMap f l with
    | some b, some bs => some (b :: bs)
    | _, _ => none

/-- One leg of the `get_kpoints` loop body (lines 164-173): Cartesian start
and end, `nb = int(ceil(distance * line_density))`, then the list
comprehension `[start + float(i) / float(nb) * (end - start) for i in
range(0, nb + 1)]`, whose division raises when `nb = 0`. -/
def sampleLeg (cart : (Fin 3 → ℝ) → (Fin 3 → ℝ)) (start stop : Fin 3 → ℝ)
    (line_density : ℝ) : Option (List (Fin 3 → ℝ)) :=
  let s := cart start
  let e := cart stop
  let nb : ℤ := ⌈dist3 s e * line_density⌉
  optMap (fun i => (pydiv (i : ℕ) ((nb : ℤ) : ℝ)).map fun t => s + t • (e - s))
    (List.range (nb + 1).toNat)

/-- `HighSymmKpath.get_kpoints` (lines 155-174): for each segment `b` of
the path, for each consecutive label pair, look the labels up in the
`kpoints` dict and extend the flat output list with the sampled leg.  The
fractional-to-Cartesian conversion of the reciprocal lattice collaborator
is the parameter `cart`. -/
def get_kpoints (cart : (Fin 3 → ℝ) → (Fin 3 → ℝ)) (kp : KPath)
    (line_density : ℝ) : Option (List (Fin 3 → ℝ)) :=
  (optMap (fun b =>
      (optMap (fun pq =>
          match kp.kpoints.lookup pq.1, kp.kpoints.lookup pq.2 with
          | some s, some e => sampleLeg cart s e line_density
          | _, _ => none)
        (b.zip b.tail)).map List.flatten)
    kp.path).map List.flatten

/-- The interpolation map of one leg of `get_kpoints`: the point emitted at
index `i` when the leg from `s` to `e` is cut into `nb` steps. -/
def legPoint (s e : Fin 3 → ℝ) (nb : ℤ) (i : ℕ) : Fin 3 → ℝ :=
  s + ((i : ℝ) / (nb : ℝ)) • (e - s)

/-- Modelled from the spec: "ratio = b·cos(alpha)/c + b²sin²(alpha)/a²", with
`alpha` the conventional cell angle used in radians in both trigonometric
functions (the source instead applies `sin` to the angle in degrees).
`alphaRad` is the angle already converted to radians. -/
def ratioOfSpec (a b c alphaRad : ℝ) : ℝ :=
  b * Real.cos alphaRad / c + b ^ 2 * Real.sin alphaRad ^ 2 / a ^ 2

/-- A segment is well formed w.r.t. a label list: length at least two and
every label drawn from the list. -/
def segOK (labels : List String) (seg : List String) : Prop :=
  2 ≤ seg.length ∧ ∀ l ∈ seg, l ∈ labels

/-- Referential integrity of a `KPath`: every path segment has length at
least two and only uses labels that are keys of the `kpoints` dict. -/
def wellFormed (kp : KPath) : Prop :=
  ∀ seg ∈ kp.path, segOK (kp.kpoints.map Prod.fst) seg

/-- The condition under which some branch of the dispatch assigns a path:
the disjunction of the guards of `classify`, row by row. -/
def matchesRow (s : SymData) : Prop :=
  (s.latticeType = "cubic" ∧
    (s.spacegroupSymbol.data.contains 'P' = true ∨
     s.spacegroupSymbol.data.contains 'F' = true ∨
     s.spacegroupSymbol.data.contains 'I' = true)) ∨
  (s.latticeType = "tetragonal" ∧
    (s.spacegroupSymbol.data.contains 'P' = true ∨
     s.spacegroupSymbol.data.contains 'I' = true)) ∨
  (s.latticeType = "orthorhombic" ∧
    (s.spacegroupSymbol.data.contains 'P' = true ∨
     s.spacegroupSymbol.data.contains 'F' = true ∨
     s.spacegroupSymbol.data.contains 'I' = true ∨
     s.spacegroupSymbol.data.contains 'C' = true)) ∨
  s.latticeType = "hexagonal" ∨
  s.latticeType = "rhombohedral" ∨
  (s.latticeType = "monoclinic" ∧
    (s.spacegroupSymbol.data.contains 'P' = true ∨
     s.spacegroupSymbol.data.contains 'C' = true)) ∨
  (s.latticeType = "triclinic" ∧
    ((s.kalpha > 90 ∧ s.kbeta > 90 ∧ s.kgamma > 90) ∨
     (s.kalpha < 90 ∧ s.kbeta < 90 ∧ s.kgamma < 90) ∨
     (s.kalpha > 90 ∧ s.kbeta > 90 ∧ s.kgamma = 90) ∨
     (s.kalpha < 90 ∧ s.kbeta < 90 ∧ s.kgamma = 90)))

/-- Monoclinic C-centred input with conventional `a = b = c = 1`,
conventional `alpha = 90` degrees and reciprocal `kgamma = 89 < 90`:
the input on which the degree/radian slip of the MCLC ratio shows. -/
def sMclcDeg : SymData := ⟨"monoclinic", "C2/m", 1, 1, 1, 90, 1, 90, 90, 90, 89⟩

/-- A triclinic input with `kalpha = 90` and the other two reciprocal
angles above 90 degrees: the mixed one-angle-equal case in which the
equal angle is not `kgamma`. -/
def sTriMixed : SymData := ⟨"triclinic", "P1", 1, 1, 1, 90, 1, 90, 90, 95, 95⟩

/-- A triclinic input with every reciprocal angle above 90 degrees. -/
def sTriA : SymData := ⟨"triclinic", "P1", 1, 1, 1, 90, 1, 90, 95, 95, 95⟩

/-- A cubic input whose space-group symbol contains none of P, F, I:
matches no row of the classification table. -/
def sCubR : SymData := ⟨"cubic", "R3", 1, 1, 1, 90, 1, 90, 90, 90, 90⟩

/-- A primitive cubic input (symbol of the Pm-3m family). -/
def sCub : SymData := ⟨"cubic", "Pm-3m", 1, 1, 1, 90, 1, 90, 90, 90, 90⟩

/-- Body-centred tetragonal input with `c = 2 < a = 3`. -/
def sBct1 : SymData := ⟨"tetragonal", "I4/mmm", 3, 3, 2, 90, 1, 90, 90, 90, 90⟩

/-- Body-centred tetragonal input with `c = 3 ≥ a = 2`. -/
def sBct2 : SymData := ⟨"tetragonal", "I4/mmm", 2, 2, 3, 90, 1, 90, 90, 90, 90⟩

/-- Face-centred orthorhombic input with `1/a² > 1/b² + 1/c²`. -/
def sOrcfGT : SymData := ⟨"orthorhombic", "Fddd", 1, 2, 2, 90, 1, 90, 90, 90, 90⟩

/-- Face-centred orthorhombic input with `1/a² = 1/b² + 1/c²` exactly
(`a = 1`, `b = c = √2`). -/
def sOrcfEq : SymData :=
  ⟨"orthorhombic", "Fddd", 1, Real.sqrt 2, Real.sqrt 2, 90, 1, 90, 90, 90, 90⟩

/-- A `KPath` whose single segment has a zero-length leg (the same label
twice, hence identical Cartesian coordinates). -/
def zeroLegPath : KPath :=
  ⟨"ZL", [("A", ![0.0, 0.0, 0.0])], [["A", "A"]]⟩

/-- A two-segment `KPath` used to observe leg concatenation order and the
duplicated shared endpoint: segment `A-B-C` followed by segment `D-E`. -/
def twoSegPath : KPath :=
  ⟨"TS",
   [("A", ![0.0, 0.0, 0.0]),
    ("B", ![1.0, 0.0, 0.0]),
    ("C", ![1.0, 1.0, 0.0]),
    ("D", ![0.0, 0.0, 0.0]),
    ("E", ![0.0, 0.0, 2.0])],
   [["A", "B", "C"], ["D", "E"]]⟩

/-! ## Helper lemmas -/

lemma optMap_eq_some_map {α β : Type} (f : α → Option β) (g : α → β) :
    ∀ l : List α, (∀ x ∈ l, f x = some (g x)) → optMap f l = some (l.map g)
  | [], _ => rfl
  | a :: l, h => by
    have ha : f a = some (g a) := h a (List.mem_cons_self a l)
    have hl : optMap f l = some (l.map g) :=
      optMap_eq_some_map f g l fun x hx => h x (List.mem_cons_of_mem a hx)
    simp [optMap, ha, hl]

lemma sampleLeg_pos (cart : (Fin 3 → ℝ) → (Fin 3 → ℝ)) (start stop : Fin 3 → ℝ)
    (ρ : ℝ) (hρ : 0 < ρ) (hd : 0 < dist3 (cart start) (cart stop)) :
    sampleLeg cart start stop ρ =
      some ((List.range ((⌈dist3 (cart start) (cart stop) * ρ⌉).toNat + 1)).map
        (legPoint (cart start) (cart stop) ⌈dist3 (cart start) (cart stop) * ρ⌉)) := by
  have hnb : (0 : ℤ) < ⌈dist3 (cart start) (cart stop) * ρ⌉ :=
    Int.ceil_pos.mpr (mul_pos hd hρ)
  have hne : ((⌈dist3 (cart start) (cart stop) * ρ⌉ : ℤ) : ℝ) ≠ 0 := by
    exact_mod_cast hnb.ne'
  have htn : (⌈dist3 (cart start) (cart stop) * ρ⌉ + 1).toNat =
      (⌈dist3 (cart start) (cart stop) * ρ⌉).toNat + 1 := by omega
  simp only [sampleLeg]
  rw [htn]
  exact optMap_eq_some_map _ _ _ fun i _ => by
    simp [pydiv, hne, legPoint]

lemma head_map_range {α : Type} (g : ℕ → α) (n : ℕ) :
    ((List.range (n + 1)).map g).head? = some (g 0) := by
  rw [List.range_succ_eq_map]
  simp

lemma last_map_range {α : Type} (g : ℕ → α) (n : ℕ) :
    ((List.range (n + 1)).map g).getLast? = some (g n) := by
  rw [List.range_succ, List.map_append]
  simp

lemma legPoint_zero (s e : Fin 3 → ℝ) (nb : ℤ) : legPoint s e nb 0 = s := by
  simp [legPoint]

lemma legPoint_last (s e : Fin 3 → ℝ) (nb : ℤ) (h : 0 < nb) :
    legPoint s e nb nb.toNat = e := by
  have hne : ((nb : ℤ) : ℝ) ≠ 0 := by exact_mod_cast h.ne'
  have hcast : ((nb.toNat : ℕ) : ℝ) = ((nb : ℤ) : ℝ) := by
    exact_mod_cast Int.toNat_of_nonneg h.le
  simp [legPoint, hcast, div_self hne]

lemma dist3_self (u : Fin 3 → ℝ) : dist3 u u = 0 := by
  simp [dist3]

lemma sampleLeg_self (cart : (Fin 3 → ℝ) → (Fin 3 → ℝ)) (v : Fin 3 → ℝ) (ρ : ℝ) :
    sampleLeg cart v v ρ = none := by
  simp only [sampleLeg, dist3_self, zero_mul, Int.ceil_zero]
  simp [optMap, pydiv, List.range_succ]

lemma cos_ninety_ne_zero : Real.cos 90 ≠ 0 := by
  intro h
  rcases Real.cos_eq_zero_iff.mp h with ⟨k, hk⟩
  have hk0 : (2 * (k : ℝ) + 1) ≠ 0 := by
    intro h0
    have : (90 : ℝ) = 0 := by rw [hk, h0]; ring
    norm_num at this
  have hpi : Real.pi = 180 / (2 * (k : ℝ) + 1) := by
    field_simp at hk ⊢
    linarith [hk]
  apply irrational_pi
  refine ⟨(180 : ℚ) / (2 * (k : ℚ) + 1), ?_⟩
  rw [hpi]
  push_cast
  norm_num

lemma sin_ninety_sq_lt_one : Real.sin 90 ^ 2 < 1 := by
  have h1 : Real.sin 90 ^ 2 + Real.cos 90 ^ 2 = 1 := Real.sin_sq_add_cos_sq 90
  have h2 : 0 < Real.cos 90 ^ 2 := by
    have := cos_ninety_ne_zero
    positivity
  linarith

lemma dist3_AB : dist3 (![0.0, 0.0, 0.0]) ![1.0, 0.0, 0.0] = 1 := by
  simp [dist3, Fin.sum_univ_three]
  norm_num

lemma dist3_BC : (0 : ℝ) < dist3 (![1.0, 0.0, 0.0]) ![1.0, 1.0, 0.0] := by
  rw [dist3]
  apply Real.sqrt_pos.mpr
  simp [Fin.sum_univ_three]
  norm_num

lemma dist3_DE : (0 : ℝ) < dist3 (![0.0, 0.0, 0.0]) ![0.0, 0.0, 2.0] := by
  rw [dist3]
  apply Real.sqrt_pos.mpr
  simp [Fin.sum_univ_three]
  norm_num

lemma wf_cubic : wellFormed cubic := by
  unfold wellFormed segOK
  decide

lemma wf_fcc : wellFormed fcc := by
  unfold wellFormed segOK
  decide

lemma wf_bcc : wellFormed bcc := by
  unfold wellFormed segOK
  decide

lemma wf_tet : wellFormed tet := by
  unfold wellFormed segOK
  decide

lemma wf_bctet1 : ∀ c a : ℝ, wellFormed (bctet1 c a) := by
  intro c a
  have hk : ((bctet1 c a).kpoints.map Prod.fst) = ["\\Gamma", "M", "N", "P", "X", "Z", "Z_1"] := rfl
  have hp : (bctet1 c a).path = [["\\Gamma", "X", "M", "\\Gamma", "Z", "P", "N", "Z_1", "M"], ["X", "P"]] := rfl
  unfold wellFormed segOK
  simp only [hk, hp]
  decide

lemma wf_bctet2 : ∀ c a : ℝ, wellFormed (bctet2 c a) := by
  intro c a
  have hk : ((bctet2 c a).kpoints.map Prod.fst) = ["\\Gamma", "N", "P", "\\Sigma", "\\Sigma_1", "X", "Y", "Y_1", "Z"] := rfl
  have hp : (bctet2 c a).path = [["\\Gamma", "X", "Y", "\\Sigma", "\\Gamma", "Z", "\\Sigma_1", "N", "P", "Y_1", "Z"], ["X", "P"]] := rfl
  unfold wellFormed segOK
  simp only [hk, hp]
  decide

lemma wf_orc : wellFormed orc := by
  unfold wellFormed segOK
  decide

lemma wf_orcf1 : ∀ a b c : ℝ, wellFormed (orcf1 a b c) := by
  intro a b c
  have hk : ((orcf1 a b c).kpoints.map Prod.fst) = ["\\Gamma", "A", "A_1", "L", "T", "X", "X_1", "Y", "Z"] := rfl
  have hp : (orcf1 a b c).path = [["\\Gamma", "Y", "T", "Z", "\\Gamma", "X", "A_1", "Y"], ["T", "X_1"], ["X", "A", "Z"], ["L", "\\Gamma"]] := rfl
  unfold wellFormed segOK
  simp only [hk, hp]
  decide

lemma wf_orcf2 : ∀ a b c : ℝ, wellFormed (orcf2 a b c) := by
  intro a b c
  have hk : ((orcf2 a b c).kpoints.map Prod.fst) = ["\\Gamma", "C", "C_1", "D", "D_1", "L", "H", "H_1", "X", "Y", "Z"] := rfl
  have hp : (orcf2 a b c).path = [["\\Gamma", "Y", "C", "D", "X", "\\Gamma", "Z", "D_1", "H", "C"], ["C_1", "Z"], ["X", "H_1"], ["H", "Y"], ["L", "\\Gamma"]] := rfl
  unfold wellFormed segOK
  simp only [hk, hp]
  decide

lemma wf_orcf3 : ∀ a b c : ℝ, wellFormed (orcf3 a b c) := by
  intro a b c
  have hk : ((orcf3 a b c).kpoints.map Prod.fst) = ["\\Gamma", "A", "A_1", "L", "T", "X", "X_1", "Y", "Z"] := rfl
  have hp : (orcf3 a b c).path = [["\\Gamma", "Y", "T", "Z", "\\Gamma", "X", "A_1", "Y"], ["X", "A", "Z"], ["L", "\\Gamma"]] := rfl
  unfold wellFormed segOK
  simp only [hk, hp]
  decide

lemma wf_orci : ∀ a b c : ℝ, wellFormed (orci a b c) := by
  intro a b c
  have hk : ((orci a b c).kpoints.map Prod.fst) = ["\\Gamma", "L", "L_1", "L_2", "R", "S", "T", "W", "X", "X_1", "Y", "Y_1", "Z"] := rfl
  have hp : (orci a b c).path = [["\\Gamma", "X", "L", "T", "W", "R", "X_1", "Z", "\\Gamma", "Y", "S", "W"], ["L_1", "Y"], ["Y_1", "Z"]] := rfl
  unfold wellFormed segOK
  simp only [hk, hp]
  decide

lemma wf_orcc : ∀ a b c : ℝ, wellFormed (orcc a b c) := by
  intro a b c
  have hk : ((orcc a b c).kpoints.map Prod.fst) = ["\\Gamma", "A", "A_1", "R", "S", "T", "X", "X_1", "Y", "Z"] := rfl
  have hp : (orcc a b c).path = [["\\Gamma", "X", "S", "R", "A", "Z", "\\Gamma", "Y", "X_1", "A_1", "T", "Y"], ["Z", "T"]] := rfl
  unfold wellFormed segOK
  simp only [hk, hp]
  decide

lemma wf_hex : wellFormed hex := by
  unfold wellFormed segOK
  decide

lemma wf_rhl1 : ∀ alpha : ℝ, wellFormed (rhl1 alpha) := by
  intro alpha
  have hk : ((rhl1 alpha).kpoints.map Prod.fst) = ["\\Gamma", "B", "B_1", "F", "L", "L_1", "P", "P_1", "P_2", "Q", "X", "Z"] := rfl
  have hp : (rhl1 alpha).path = [["\\Gamma", "L", "B_1"], ["B", "Z", "\\Gamma", "X"], ["Q", "F", "P_1", "Z"], ["L", "P"]] := rfl
  unfold wellFormed segOK
  simp only [hk, hp]
  decide

lemma wf_rhl2 : ∀ alpha : ℝ, wellFormed (rhl2 alpha) := by
  intro alpha
  have hk : ((rhl2 alpha).kpoints.map Prod.fst) = ["\\Gamma", "F", "L", "P", "P_1", "Q", "Q_1", "Z"] := rfl
  have hp : (rhl2 alpha).path = [["\\Gamma", "P", "Z", "Q", "\\Gamma", "F", "P_1", "Q_1", "L", "Z"]] := rfl
  unfold wellFormed segOK
  simp only [hk, hp]
  decide

lemma wf_mcl : ∀ b c alpha : ℝ, wellFormed (mcl b c alpha) := by
  intro b c alpha
  have hk : ((mcl b c alpha).kpoints.map Prod.fst) = ["\\Gamma", "A", "C", "D", "D_1", "E", "H", "H_1", "H_2", "M", "M_1", "M_2", "X", "Y", "Y_1", "Z"] := rfl
  have hp : (mcl b c alpha).path = [["\\Gamma", "Y", "H", "C", "E", "M_1", "A", "X", "H_1"], ["M", "D", "Z"], ["Y", "D"]] := rfl
  unfold wellFormed segOK
  simp only [hk, hp]
  decide

lemma wf_mclc1 : ∀ a b c alpha : ℝ, wellFormed (mclc1 a b c alpha) := by
  intro a b c alpha
  have hk : ((mclc1 a b c alpha).kpoints.map Prod.fst) = ["\\Gamma", "N", "N_1", "F", "F_1", "F_2", "I", "I_1", "L", "M", "X", "X_1", "X_2", "Y", "Y_1", "Z"] := rfl
  have hp : (mclc1 a b c alpha).path = [["\\Gamma", "Y", "F", "L", "I"], ["I_1", "Z", "F_1"], ["Y", "X_1"], ["X", "\\Gamma", "N"], ["M", "\\Gamma"]] := rfl
  unfold wellFormed segOK
  simp only [hk, hp]
  decide

lemma wf_mclc2 : ∀ a b c alpha : ℝ, wellFormed (mclc2 a b c alpha) := by
  intro a b c alpha
  have hk : ((mclc2 a b c alpha).kpoints.map Prod.fst) = ["\\Gamma", "N", "N_1", "F", "F_1", "F_2", "F_3", "I", "I_1", "L", "M", "X", "X_1", "X_2", "Y", "Y_1", "Z"] := rfl
  have hp : (mclc2 a b c alpha).path = [["\\Gamma", "Y", "F", "L", "I"], ["I_1", "Z", "F_1"], ["N", "\\Gamma", "M"]] := rfl
  unfold wellFormed segOK
  simp only [hk, hp]
  decide

lemma wf_mclc3 : ∀ a b c alpha : ℝ, wellFormed (mclc3 a b c alpha) := by
  intro a b c alpha
  have hk : ((mclc3 a b c alpha).kpoints.map Prod.fst) = ["\\Gamma", "F", "F_1", "F_2", "H", "H_1", "H_2", "I", "M", "N", "N_1", "X", "Y", "Y_1", "Y_2", "Y_3", "Z"] := rfl
  have hp : (mclc3 a b c alpha).path = [["\\Gamma", "Y", "F", "H", "Z", "I", "F_1"], ["H_1", "Y_1", "X", "\\Gamma", "N"], ["M", "\\Gamma"]] := rfl
  unfold wellFormed segOK
  simp only [hk, hp]
  decide

lemma wf_mclc4 : ∀ a b c alpha : ℝ, wellFormed (mclc4 a b c alpha) := by
  intro a b c alpha
  have hk : ((mclc4 a b c alpha).kpoints.map Prod.fst) = ["\\Gamma", "F", "F_1", "F_2", "H", "H_1", "H_2", "I", "M", "N", "N_1", "X", "Y", "Y_1", "Y_2", "Y_3", "Z"] := rfl
  have hp : (mclc4 a b c alpha).path = [["\\Gamma", "Y", "F", "H", "Z", "I"], ["H_1", "Y_1", "X", "\\Gamma", "N"], ["M", "\\Gamma"]] := rfl
  unfold wellFormed segOK
  simp only [hk, hp]
  decide

lemma wf_mclc5 : ∀ a b c alpha : ℝ, wellFormed (mclc5 a b c alpha) := by
  intro a b c alpha
  have hk : ((mclc5 a b c alpha).kpoints.map Prod.fst) = ["\\Gamma", "F", "F_1", "F_2", "H", "H_1", "H_2", "I", "I_1", "L", "M", "N", "N_1", "X", "Y", "Y_1", "Y_2", "Y_3", "Z"] := rfl
  have hp : (mclc5 a b c alpha).path = [["\\Gamma", "Y", "F", "L", "I"], ["I_1", "Z", "H", "F_1"], ["H_1", "Y_1", "X", "\\Gamma", "N"], ["M", "\\Gamma"]] := rfl
  unfold wellFormed segOK
  simp only [hk, hp]
  decide

lemma wf_tria : wellFormed tria := by
  unfold wellFormed segOK
  decide

lemma wf_trib : wellFormed trib := by
  unfold wellFormed segOK
  decide

/-! ## Claim theorems -/

/-- Claim C1.  The spec's MCLC ratio uses `alpha` in radians in both
trigonometric functions and demands MCLC4 when the ratio equals 1.  At the
monoclinic C input `a = b = c = 1`, `alpha = 90`°, `kgamma = 89 < 90`, the
spec ratio is exactly 1 (so the claim selects MCLC4), but the dispatch —
which applies `sin` to the angle in degrees while `cos` gets radians —
computes `sin(90 rad)² < 1` and selects MCLC3 instead. -/
theorem mclc_ratio_degree_slip :
    ratioOfSpec 1 1 1 (90 * Real.pi / 180) = 1 ∧
    classify sMclcDeg = some (mclc3 1 1 1 (90 * Real.pi / 180)) := by
  constructor
  · unfold ratioOfSpec
    rw [show (90 : ℝ) * Real.pi / 180 = Real.pi / 2 by ring,
      Real.cos_pi_div_two, Real.sin_pi_div_two]
    norm_num
  · have h0 : Real.cos (90 * Real.pi / 180) + Real.sin 90 ^ 2 < 1 := by
      have h : (90 : ℝ) * Real.pi / 180 = Real.pi / 2 := by ring
      rw [h, Real.cos_pi_div_two]
      simpa using sin_ninety_sq_lt_one
    unfold classify sMclcDeg
    simp +decide only []
    norm_num
    rw [if_neg (by linarith), if_neg (ne_of_lt h0), if_pos h0]

/-- Claim C2.  Sampling a zero-length leg does not produce one point: the
source computes `nb = 0` and then divides `float(i)` by `float(nb)`, a
division by zero (`ZeroDivisionError` in the source, `none` in the
embedding), for every conversion function, point and density; in
particular `get_kpoints` on a path with a repeated label fails. -/
theorem zero_length_leg_fails :
    (∀ (cart : (Fin 3 → ℝ) → (Fin 3 → ℝ)) (v : Fin 3 → ℝ) (ρ : ℝ),
      sampleLeg cart v v ρ = none) ∧
    get_kpoints (fun v => v) zeroLegPath 20 = none := by
  refine ⟨sampleLeg_self, ?_⟩
  have h := sampleLeg_self (fun v => (v : Fin 3 → ℝ)) ![0.0, 0.0, 0.0] 20
  simp [get_kpoints, zeroLegPath, optMap, h]

/-- Claim C3, counterexample.  A cubic structure whose space-group symbol
contains none of P, F, I matches no row; construction nevertheless
completes (no error is raised anywhere in `__init__`) and the `kpath`
property returns `None` — precisely the outcome the claim rules out. -/
theorem unmatched_lattice_ce : kpath (HighSymmKpath_init sCubR) = none := by
  unfold kpath HighSymmKpath_init classify sCubR
  simp

/-- Claim C3, amended.  For every input matching no row of the table,
construction completes without error, leaves `_kpath` as `None`, and the
`kpath` property returns `None` (rather than failing or returning a
non-empty path). -/
theorem unmatched_lattice_silent_none (s : SymData) (h : ¬ matchesRow s) :
    kpath (HighSymmKpath_init s) = none := by
  unfold matchesRow at h
  simp only [not_or] at h
  obtain ⟨hc, ht, ho, hh, hr, hm, htr⟩ := h
  unfold kpath HighSymmKpath_init classify
  by_cases h1 : s.latticeType = "cubic"
  · have hx : ¬(s.spacegroupSymbol.data.contains 'P' = true ∨
        s.spacegroupSymbol.data.contains 'F' = true ∨
        s.spacegroupSymbol.data.contains 'I' = true) := fun hx => hc ⟨h1, hx⟩
    simp only [not_or, Bool.not_eq_true] at hx
    obtain ⟨hP, hF, hI⟩ := hx
    rw [if_pos h1]
    simp only [hP, hF, hI, Bool.false_eq_true, if_false, ite_false]
  · rw [if_neg h1]
    by_cases h2 : s.latticeType = "tetragonal"
    · have hx : ¬(s.spacegroupSymbol.data.contains 'P' = true ∨
          s.spacegroupSymbol.data.contains 'I' = true) := fun hx => ht ⟨h2, hx⟩
      simp only [not_or, Bool.not_eq_true] at hx
      obtain ⟨hP, hI⟩ := hx
      rw [if_pos h2]
      simp only [hP, hI, Bool.false_eq_true, if_false, ite_false]
    · rw [if_neg h2]
      by_cases h3 : s.latticeType = "orthorhombic"
      · have hx : ¬(s.spacegroupSymbol.data.contains 'P' = true ∨
            s.spacegroupSymbol.data.contains 'F' = true ∨
            s.spacegroupSymbol.data.contains 'I' = true ∨
            s.spacegroupSymbol.data.contains 'C' = true) := fun hx => ho ⟨h3, hx⟩
        simp only [not_or, Bool.not_eq_true] at hx
        obtain ⟨hP, hF, hI, hC⟩ := hx
        rw [if_pos h3]
        simp only [hP, hF, hI, hC, Bool.false_eq_true, if_false, ite_false]
      · rw [if_neg h3, if_neg hh, if_neg hr]
        by_cases h6 : s.latticeType = "monoclinic"
        · have hx : ¬(s.spacegroupSymbol.data.contains 'P' = true ∨
              s.spacegroupSymbol.data.contains 'C' = true) := fun hx => hm ⟨h6, hx⟩
          simp only [not_or, Bool.not_eq_true] at hx
          obtain ⟨hP, hC⟩ := hx
          rw [if_pos h6]
          simp only [hP, hC, Bool.false_eq_true, if_false, ite_false]
        · rw [if_neg h6]
          by_cases h7 : s.latticeType = "triclinic"
          · have hx : ¬((s.kalpha > 90 ∧ s.kbeta > 90 ∧ s.kgamma > 90) ∨
                (s.kalpha < 90 ∧ s.kbeta < 90 ∧ s.kgamma < 90) ∨
                (s.kalpha > 90 ∧ s.kbeta > 90 ∧ s.kgamma = 90) ∨
                (s.kalpha < 90 ∧ s.kbeta < 90 ∧ s.kgamma = 90)) := fun hx => htr ⟨h7, hx⟩
            simp only [not_or] at hx
            obtain ⟨n1, n2, n3, n4⟩ := hx
            rw [if_pos h7]
            simp only [if_neg n1, if_neg n2, if_neg n3, if_neg n4]
          · rw [if_neg h7]

/-- Claim C3, witness for the amended theorem: the triclinic input with
`kalpha = 90`, `kbeta = kgamma = 95` matches no row, and retrieving the
path on the constructed object yields `None`. -/
theorem unmatched_lattice_silent_none_witness :
    kpath (HighSymmKpath_init sTriMixed) = none := by
  apply unmatched_lattice_silent_none
  unfold matchesRow sTriMixed
  norm_num
  simp

/-- Claim C4.  First part: a leg of positive Cartesian length `L` sampled
at positive density `ρ` yields exactly `⌈L·ρ⌉ + 1` points whose first is
the leg's Cartesian start and whose last is its Cartesian end.  Second
part: on a path of segments `[p,q,r]` and `[u,w]`, `get_kpoints` is the
concatenation of the per-leg samples in segment order then leg order,
with no deduplication of the endpoint shared by consecutive legs. -/
theorem sampler_leg_spec :
    (∀ (cart : (Fin 3 → ℝ) → (Fin 3 → ℝ)) (start stop : Fin 3 → ℝ) (ρ : ℝ),
      0 < ρ → 0 < dist3 (cart start) (cart stop) →
      (sampleLeg cart start stop ρ).map List.length =
        some ((⌈dist3 (cart start) (cart stop) * ρ⌉).toNat + 1) ∧
      (sampleLeg cart start stop ρ).bind List.head? = some (cart start) ∧
      (sampleLeg cart start stop ρ).bind List.getLast? = some (cart stop)) ∧
    (∀ (cart : (Fin 3 → ℝ) → (Fin 3 → ℝ)) (ρ : ℝ) (kp : KPath)
      (p q r u w : String) (vp vq vr vu vw : Fin 3 → ℝ)
      (l1 l2 l3 : List (Fin 3 → ℝ)),
      kp.path = [[p, q, r], [u, w]] →
      kp.kpoints.lookup p = some vp →
      kp.kpoints.lookup q = some vq →
      kp.kpoints.lookup r = some vr →
      kp.kpoints.lookup u = some vu →
      kp.kpoints.lookup w = some vw →
      sampleLeg cart vp vq ρ = some l1 →
      sampleLeg cart vq vr ρ = some l2 →
      sampleLeg cart vu vw ρ = some l3 →
      get_kpoints cart kp ρ = some ((l1 ++ l2) ++ l3)) := by
  constructor
  · intro cart start stop ρ hρ hd
    have hnb : (0 : ℤ) < ⌈dist3 (cart start) (cart stop) * ρ⌉ :=
      Int.ceil_pos.mpr (mul_pos hd hρ)
    rw [sampleLeg_pos cart start stop ρ hρ hd]
    refine ⟨by simp, ?_, ?_⟩
    · rw [Option.some_bind, head_map_range, legPoint_zero]
    · rw [Option.some_bind, last_map_range, legPoint_last _ _ _ hnb]
  · intro cart ρ kp p q r u w vp vq vr vu vw l1 l2 l3
      hpath hp hq hr hu hw h1 h2 h3
    unfold get_kpoints
    rw [hpath]
    simp [optMap, hp, hq, hr, hu, hw, h1, h2, h3]

/-- Claim C4, witness: sampling the unit leg from the origin to
`[1,0,0]` (identity conversion) at density 20 yields 21 points from the
start to the end, and on the two-segment path `A-B-C`, `D-E` the output is
the ordered, unde-duplicated concatenation of the three leg samples. -/
theorem sampler_leg_spec_witness :
    (sampleLeg (fun v => v) ![0.0, 0.0, 0.0] ![1.0, 0.0, 0.0] 20).map List.length =
      some 21 ∧
    (sampleLeg (fun v => v) ![0.0, 0.0, 0.0] ![1.0, 0.0, 0.0] 20).bind List.head? =
      some ![0.0, 0.0, 0.0] ∧
    (sampleLeg (fun v => v) ![0.0, 0.0, 0.0] ![1.0, 0.0, 0.0] 20).bind List.getLast? =
      some ![1.0, 0.0, 0.0] ∧
    get_kpoints (fun v => v) twoSegPath 20 =
      some ((((sampleLeg (fun v => v) ![0.0, 0.0, 0.0] ![1.0, 0.0, 0.0] 20).getD []) ++
             ((sampleLeg (fun v => v) ![1.0, 0.0, 0.0] ![1.0, 1.0, 0.0] 20).getD [])) ++
            ((sampleLeg (fun v => v) ![0.0, 0.0, 0.0] ![0.0, 0.0, 2.0] 20).getD [])) := by
  have hdAB : (0 : ℝ) < dist3 (![0.0, 0.0, 0.0]) ![1.0, 0.0, 0.0] := by
    rw [dist3_AB]; norm_num
  have hA := sampler_leg_spec.1 (fun v => v) ![0.0, 0.0, 0.0] ![1.0, 0.0, 0.0] 20
    (by norm_num) hdAB
  have h1 := sampleLeg_pos (fun v => v) ![0.0, 0.0, 0.0] ![1.0, 0.0, 0.0] 20
    (by norm_num) hdAB
  have h2 := sampleLeg_pos (fun v => v) ![1.0, 0.0, 0.0] ![1.0, 1.0, 0.0] 20
    (by norm_num) dist3_BC
  have h3 := sampleLeg_pos (fun v => v) ![0.0, 0.0, 0.0] ![0.0, 0.0, 2.0] 20
    (by norm_num) dist3_DE
  refine ⟨?_, hA.2.1, hA.2.2, ?_⟩
  · rw [hA.1, dist3_AB]
    norm_num
    decide
  · rw [h1, h2, h3]
    simp only [Option.getD_some]
    exact sampler_leg_spec.2 (fun v => v) 20 twoSegPath "A" "B" "C" "D" "E"
      ![0.0, 0.0, 0.0] ![1.0, 0.0, 0.0] ![1.0, 1.0, 0.0] ![0.0, 0.0, 0.0] ![0.0, 0.0, 2.0]
      _ _ _ rfl rfl rfl rfl rfl rfl h1 h2 h3

/-- Claim C5.  For an orthorhombic F-centred input (whose symbol contains
neither I nor C, which would overwrite the choice in the source's chain of
independent `if`s), the dispatch selects ORCF1 when `1/a² > 1/b² + 1/c²`,
ORCF2 when `<`, and ORCF3 exactly on the boundary. -/
theorem orcf_branch_rule (s : SymData)
    (hlt : s.latticeType = "orthorhombic")
    (hF : s.spacegroupSymbol.data.contains 'F' = true)
    (hI : s.spacegroupSymbol.data.contains 'I' = false)
    (hC : s.spacegroupSymbol.data.contains 'C' = false) :
    (1 / s.convA ^ 2 > 1 / s.convB ^ 2 + 1 / s.convC ^ 2 →
      classify s = some (orcf1 s.convA s.convB s.convC)) ∧
    (1 / s.convA ^ 2 < 1 / s.convB ^ 2 + 1 / s.convC ^ 2 →
      classify s = some (orcf2 s.convA s.convB s.convC)) ∧
    (1 / s.convA ^ 2 = 1 / s.convB ^ 2 + 1 / s.convC ^ 2 →
      classify s = some (orcf3 s.convA s.convB s.convC)) := by
  unfold classify
  rw [hlt]
  simp only [hF, hI, hC, String.reduceEq, if_true, if_false, ite_true, ite_false,
    Bool.false_eq_true, Bool.true_eq_false]
  refine ⟨?_, ?_, ?_⟩ <;> intro h <;> split_ifs with g1 g2 <;>
    first | rfl | linarith

/-- Claim C5, witness: `a = 1, b = c = 2` gives `1 > 1/4 + 1/4` hence
ORCF1; `a = 1, b = c = √2` gives exact equality hence ORCF3 (never ORCF1
or ORCF2). -/
theorem orcf_branch_rule_witness :
    classify sOrcfGT = some (orcf1 1 2 2) ∧
    classify sOrcfEq = some (orcf3 1 (Real.sqrt 2) (Real.sqrt 2)) := by
  constructor
  · exact (orcf_branch_rule sOrcfGT rfl (by decide) (by decide) (by decide)).1
      (by unfold sOrcfGT; norm_num)
  · refine (orcf_branch_rule sOrcfEq rfl (by decide) (by decide) (by decide)).2.2 ?_
    show (1 : ℝ) / 1 ^ 2 = 1 / Real.sqrt 2 ^ 2 + 1 / Real.sqrt 2 ^ 2
    rw [Real.sq_sqrt (by norm_num : (0 : ℝ) ≤ 2)]
    norm_num

/-- Claim C7.  For a body-centred tetragonal input, the dispatch selects
BCT1 (`bctet1 c a`) when `c < a` and BCT2 (`bctet2 c a`) when `c ≥ a`,
the tie included. -/
theorem bctet_rule (s : SymData)
    (hlt : s.latticeType = "tetragonal")
    (hI : s.spacegroupSymbol.data.contains 'I' = true) :
    (s.convC < s.convA → classify s = some (bctet1 s.convC s.convA)) ∧
    (s.convA ≤ s.convC → classify s = some (bctet2 s.convC s.convA)) ∧
    (bctet1 s.convC s.convA).name = "BCT1" ∧
    (bctet2 s.convC s.convA).name = "BCT2" := by
  unfold classify
  rw [hlt]
  simp only [hI, String.reduceEq, if_true, if_false, ite_true, ite_false]
  refine ⟨?_, ?_, rfl, rfl⟩ <;> intro h <;> split_ifs with g1 <;>
    first | rfl | linarith

/-- Claim C7, witness: `c = 2, a = 3` selects BCT1 and `c = 3, a = 2`
selects BCT2. -/
theorem bctet_rule_witness :
    classify sBct1 = some (bctet1 2 3) ∧ (bctet1 2 3).name = "BCT1" ∧
    classify sBct2 = some (bctet2 3 2) ∧ (bctet2 3 2).name = "BCT2" := by
  refine ⟨?_, ?_, ?_, ?_⟩
  · exact (bctet_rule sBct1 rfl (by decide)).1 (by unfold sBct1; norm_num)
  · exact (bctet_rule sBct1 rfl (by decide)).2.2.1
  · exact (bctet_rule sBct2 rfl (by decide)).2.1 (by unfold sBct2; norm_num)
  · exact (bctet_rule sBct2 rfl (by decide)).2.2.2

/-- Claim C8.  For a primitive cubic input (symbol containing P and
neither F nor I, which would overwrite the choice), the dispatch returns
the `cubic` path: name CUB, k-points Γ = (0,0,0), X = (0,½,0),
M = (½,½,0), R = (½,½,½) and exactly those four, with path
[[Γ,X,M,Γ,R,X],[M,R]]. -/
theorem cubic_rule (s : SymData)
    (hlt : s.latticeType = "cubic")
    (hP : s.spacegroupSymbol.data.contains 'P' = true)
    (hF : s.spacegroupSymbol.data.contains 'F' = false)
    (hI : s.spacegroupSymbol.data.contains 'I' = false) :
    classify s = some cubic ∧
    cubic.name = "CUB" ∧
    cubic.kpoints.lookup "\\Gamma" = some ![0.0, 0.0, 0.0] ∧
    cubic.kpoints.lookup "X" = some ![0.0, 0.5, 0.0] ∧
    cubic.kpoints.lookup "M" = some ![0.5, 0.5, 0.0] ∧
    cubic.kpoints.lookup "R" = some ![0.5, 0.5, 0.5] ∧
    cubic.kpoints.map Prod.fst = ["\\Gamma", "X", "R", "M"] ∧
    cubic.path = [["\\Gamma", "X", "M", "\\Gamma", "R", "X"], ["M", "R"]] := by
  refine ⟨?_, rfl, rfl, rfl, rfl, rfl, rfl, rfl⟩
  unfold classify
  rw [hlt]
  simp only [hP, hF, hI, String.reduceEq, if_true, if_false, ite_true, ite_false,
    Bool.false_eq_true]

/-- Claim C8, witness: the concrete Pm-3m cubic input. -/
theorem cubic_rule_witness : classify sCub = some cubic :=
  (cubic_rule sCub rfl (by decide) (by decide) (by decide)).1

/-- Claim C6, counterexample.  The claim says a triclinic structure with
exactly one reciprocal angle equal to 90° and the other two above 90°
selects TRI1a whichever angle is the equal one; but with `kalpha = 90`,
`kbeta = kgamma = 95` (the equal angle not being `kgamma`) no branch of
the dispatch fires and no path is produced. -/
theorem triclinic_mixed_ce : classify sTriMixed = none := by
  unfold classify sTriMixed
  norm_num
  simp

/-- Claim C6, amended.  The dispatch selects TRI1a when all three
reciprocal angles exceed 90°, or when `kgamma = 90` and the other two
exceed 90° — only equality in `kgamma` is handled, not in `kalpha` or
`kbeta`; symmetrically TRI1b for the below-90 cases. -/
theorem triclinic_rule (s : SymData) (hlt : s.latticeType = "triclinic") :
    (s.kalpha > 90 ∧ s.kbeta > 90 ∧ s.kgamma > 90 → classify s = some tria) ∧
    (s.kalpha > 90 ∧ s.kbeta > 90 ∧ s.kgamma = 90 → classify s = some tria) ∧
    (s.kalpha < 90 ∧ s.kbeta < 90 ∧ s.kgamma < 90 → classify s = some trib) ∧
    (s.kalpha < 90 ∧ s.kbeta < 90 ∧ s.kgamma = 90 → classify s = some trib) := by
  unfold classify
  rw [hlt]
  simp only [String.reduceEq, if_true, if_false, ite_true, ite_false]
  refine ⟨?_, ?_, ?_, ?_⟩ <;> rintro ⟨h1, h2, h3⟩ <;> split_ifs with g1 g2 g3 g4 <;>
    first
      | rfl
      | (exfalso; rcases g1 with ⟨u1, u2, u3⟩; linarith)
      | (exfalso; rcases g2 with ⟨u1, u2, u3⟩; linarith)
      | (exfalso; rcases g3 with ⟨u1, u2, u3⟩; linarith)
      | (exfalso; rcases g4 with ⟨u1, u2, u3⟩; linarith)
      | (exfalso; exact g1 ⟨h1, h2, h3⟩)
      | (exfalso; exact g2 ⟨h1, h2, h3⟩)
      | (exfalso; exact g3 ⟨h1, h2, h3⟩)
      | (exfalso; exact g4 ⟨h1, h2, h3⟩)

/-- Claim C6, witness for the amended theorem: all three reciprocal
angles at 95° > 90° select TRI1a. -/
theorem triclinic_rule_witness : classify sTriA = some tria :=
  (triclinic_rule sTriA rfl).1
    (by refine ⟨?_, ?_, ?_⟩ <;> (unfold sTriA; norm_num))

/-- Claim C9.  Every one of the 23 path-variant functions of the source
returns, for every input, a `KPath` in which every label of every path
segment is a key of the k-point dict and every segment has length at
least 2. -/
theorem variants_wellFormed :
    wellFormed cubic ∧ wellFormed fcc ∧ wellFormed bcc ∧ wellFormed tet ∧
    (∀ c a : ℝ, wellFormed (bctet1 c a)) ∧
    (∀ c a : ℝ, wellFormed (bctet2 c a)) ∧
    wellFormed orc ∧
    (∀ a b c : ℝ, wellFormed (orcf1 a b c)) ∧
    (∀ a b c : ℝ, wellFormed (orcf2 a b c)) ∧
    (∀ a b c : ℝ, wellFormed (orcf3 a b c)) ∧
    (∀ a b c : ℝ, wellFormed (orci a b c)) ∧
    (∀ a b c : ℝ, wellFormed (orcc a b c)) ∧
    wellFormed hex ∧
    (∀ alpha : ℝ, wellFormed (rhl1 alpha)) ∧
    (∀ alpha : ℝ, wellFormed (rhl2 alpha)) ∧
    (∀ b c alpha : ℝ, wellFormed (mcl b c alpha)) ∧
    (∀ a b c alpha : ℝ, wellFormed (mclc1 a b c alpha)) ∧
    (∀ a b c alpha : ℝ, wellFormed (mclc2 a b c alpha)) ∧
    (∀ a b c alpha : ℝ, wellFormed (mclc3 a b c alpha)) ∧
    (∀ a b c alpha : ℝ, wellFormed (mclc4 a b c alpha)) ∧
    (∀ a b c alpha : ℝ, wellFormed (mclc5 a b c alpha)) ∧
    wellFormed tria ∧ wellFormed trib :=
  ⟨wf_cubic, wf_fcc, wf_bcc, wf_tet, wf_bctet1, wf_bctet2, wf_orc, wf_orcf1,
   wf_orcf2, wf_orcf3, wf_orci, wf_orcc, wf_hex, wf_rhl1, wf_rhl2, wf_mcl,
   wf_mclc1, wf_mclc2, wf_mclc3, wf_mclc4, wf_mclc5, wf_tria, wf_trib⟩

/-- Claim C10.  In the MCL point set the two distinct labels `M_1` and
`M_2` are both mapped to the same vector `[0.5, 1 - eta, nu]`, for every
input. -/
theorem mcl_duplicate_labels (b c alpha : ℝ) :
    "M_1" ≠ "M_2" ∧
    (mcl b c alpha).kpoints.lookup "M_1" =
      some ![0.5, 1 - mclEta b c alpha, mclNu b c alpha] ∧
    (mcl b c alpha).kpoints.lookup "M_2" =
      some ![0.5, 1 - mclEta b c alpha, mclNu b c alpha] ∧
    (mcl b c alpha).kpoints.lookup "M_1" = (mcl b c alpha).kpoints.lookup "M_2" :=
  ⟨by decide, rfl, rfl, rfl⟩

end

end Bandstructure

